import Mathlib

/-!
# Verification of `budget_optimizer_api.py`

A shallow embedding of the budget-optimizer rule engine
(`src/budget_optimizer_api.py`) and proofs of the specification claims.

Modelling conventions:
* Python floats are modelled as rationals (`ℚ`).  The constants `0.5`,
  `0.7`, `1.2`, `0.8`, `1.3`, `0.2`, `0.3` of the source become exact
  rationals; for the magnitudes appearing in the rules and scenarios the
  float rounding error never crosses a comparison boundary.
* A field value that `pd.to_numeric(..., errors=coerce)` fails to parse
  (or that is missing from the record) is `none : Option ℚ`; a numeric
  value `q` (including negative ones) is `some q`.  `fillna(0)` is
  `Option.getD 0`.
* `cpc`/`cpa` are `Option ℚ` with `none` standing for `np.inf`
  (`click == 0` / `action == 0`); the batch mean `avg_cpc_all` is
  `Option ℚ` with `none` standing for the `NaN` that `pandas` `mean()`
  returns on an empty selection.  A `NaN` on either side of `<`/`>`
  compares false, and `inf > finite` compares true, exactly as in the
  helper `cpcExceeds` below.
* The `create_time` column is modelled by its parsed age in hours relative
  to `now` (`none` when `pd.to_datetime(..., errors=coerce)` yields `NaT`).
* Python 3 `round` is round-half-to-even (`pyRound`).
* The accumulated `reason` string is modelled as the ordered list of the
  appended fragments (inductive `Reason`); the source only ever appends
  fragments, never rewrites them.
-/

/-- A raw input campaign record, before numeric coercion.
`none` in a numeric field means the JSON value is missing or fails
`pd.to_numeric`; `create_age_hours` is the parsed `now - create_time`
in hours (`none` when unparseable). -/
structure RawCampaign where
  campaign_id : String
  cost : Option ℚ
  impression : Option ℚ
  click : Option ℚ
  action : Option ℚ
  purchase : Option ℚ
  purchase_value : Option ℚ
  create_age_hours : Option ℚ
  deriving Repr, DecidableEq

/-- Coercion `pd.to_numeric(x, errors=coerce).fillna(0)`: an unparseable
or missing value becomes 0, a numeric value (negative ones included)
passes through unchanged. -/
def coerceNum (x : Option ℚ) : ℚ := x.getD 0

/-- A campaign record after the numeric-coercion preprocessing step. -/
structure Campaign where
  campaign_id : String
  cost : ℚ
  impression : ℚ
  click : ℚ
  action : ℚ
  purchase : ℚ
  purchase_value : ℚ
  create_age_hours : Option ℚ
  deriving Repr, DecidableEq

/-- The per-column coercion loop over `numeric_cols`. -/
def preprocess (r : RawCampaign) : Campaign :=
  { campaign_id := r.campaign_id
    cost := coerceNum r.cost
    impression := coerceNum r.impression
    click := coerceNum r.click
    action := coerceNum r.action
    purchase := coerceNum r.purchase
    purchase_value := coerceNum r.purchase_value
    create_age_hours := r.create_age_hours }

/-- Metric roas: `purchase_value / cost` when `cost > 0`, else `0`. -/
def roasOf (c : Campaign) : ℚ :=
  if c.cost > 0 then c.purchase_value / c.cost else 0

/-- Metric cpc: `cost / click` when `click > 0`, else `np.inf`
(modelled as `none`). -/
def cpcOf (c : Campaign) : Option ℚ :=
  if c.click > 0 then some (c.cost / c.click) else none

/-- Metric cpa: `cost / action` when `action > 0`, else `np.inf`
(modelled as `none`). -/
def cpaOf (c : Campaign) : Option ℚ :=
  if c.action > 0 then some (c.cost / c.action) else none

/-- Aggregate avg_cpc_all, the mean over the rows whose cpc is not
`np.inf`: the arithmetic mean of the finite CPC values of the batch;
the value `none` models the `NaN` that `mean()` returns when no record
has a finite CPC. -/
def avgCpcAll (cs : List Campaign) : Option ℚ :=
  let vals := cs.filterMap cpcOf
  if vals = [] then none else some (vals.sum / vals.length)

/-- The comparison `cpc > avg_cpc_all * 1.3` under IEEE semantics:
`inf > finite` is true, any comparison against `NaN` is false. -/
def cpcExceeds (avg : Option ℚ) (cpc : Option ℚ) : Bool :=
  match avg with
  | none => false
  | some a =>
    match cpc with
    | none => true
    | some c => decide (c > a * (13/10))

/-- Python 3 `round` to the nearest integer, halves to even. -/
def pyRound (q : ℚ) : ℤ :=
  if q - ⌊q⌋ < 1/2 then ⌊q⌋
  else if q - ⌊q⌋ > 1/2 then ⌊q⌋ + 1
  else if ⌊q⌋ % 2 = 0 then ⌊q⌋ else ⌊q⌋ + 1

/-- The classification of rule 1: `pd.notna(create_time) and
(now - create_time) < timedelta(hours=24)`. -/
def isNewB (c : Campaign) : Bool :=
  match c.create_age_hours with
  | none => false
  | some h => decide (h < 24)

/-- Tier lookup `get_adjustment_percentage_rules`: the budget-tier
increase factor. -/
def get_adjustment_percentage_rules (daily_spend : ℚ) : ℚ :=
  if daily_spend ≤ 50 then 2
  else if daily_spend ≤ 100 then 1
  else if daily_spend ≤ 500 then 1/2
  else 3/10

/-- Possible `status` values of the emitted decision. -/
inductive Status where
  | unchanged | increased | decreased
  deriving Repr, DecidableEq

/-- The reason fragments the source appends to the `reason` string, in
order of appearance in the code. -/
inductive Reason where
  /-- the default text, performance stable so the budget is kept -/
  | stableDefault
  /-- rule 1 decrease: new campaign, CPC above 1.3 × average -/
  | newHighCpc
  /-- rule 1 keep: new campaign performing normally -/
  | newNormal
  /-- rule 2 increase: ROAS above 1.2 × target -/
  | roasIncrease
  /-- rule 2 decrease: ROAS below 0.8 × target -/
  | roasDecrease
  /-- rule 3 note: change below the $5 threshold was suppressed -/
  | suppressedUnder5
  /-- rule 5 advisory: budget very low, consider pausing -/
  | lowBudgetWarning
  deriving Repr, DecidableEq

/-- The working state of one row inside the loop: the pending
`new_budget`, `status` and reason trail. -/
structure RowState where
  new_budget : ℚ
  status : Status
  reason : List Reason
  deriving Repr, DecidableEq

/-- Rules 1 and 2 (the branch decision) for one row: the state after the
`if pd.notna(create_time) ... else ...` block. -/
def ruleStage (avg : Option ℚ) (target_roas : ℚ) (c : Campaign) : RowState :=
  let current := c.cost
  -- 默认不调整
  let init : RowState := ⟨current, Status.unchanged, [Reason.stableDefault]⟩
  if isNewB c then
    if cpcExceeds avg (cpcOf c) then
      ⟨(pyRound (max (current * (1/2)) 1) : ℤ), Status.decreased, [Reason.newHighCpc]⟩
    else
      ⟨current, Status.unchanged, [Reason.newNormal]⟩
  else
    let target := target_roas / 100
    if roasOf c > target * (6/5) then
      let factor := get_adjustment_percentage_rules current
      ⟨(pyRound (current + current * factor) : ℤ), Status.increased, [Reason.roasIncrease]⟩
    else if 0 < roasOf c ∧ roasOf c < target * (4/5) then
      ⟨(pyRound (max (current * (7/10)) 1) : ℤ), Status.decreased, [Reason.roasDecrease]⟩
    else init

/-- Rule 3: suppress adjustments smaller than $5 in absolute value. -/
def suppressStage (current : ℚ) (s : RowState) : RowState :=
  if |s.new_budget - current| < 5 then
    { new_budget := current
      status := Status.unchanged
      reason := if s.status ≠ Status.unchanged
                then s.reason ++ [Reason.suppressedUnder5] else s.reason }
  else s

/-- Rule 4: `new_budget = int(round(new_budget))`. -/
def roundStage (s : RowState) : RowState :=
  { s with new_budget := (pyRound s.new_budget : ℤ) }

/-- Rule 5: append the low-budget advisory when the final budget is below
`max(current_budget * 0.2, 1)` and the status is `decreased`. -/
def lowBudgetStage (current : ℚ) (s : RowState) : RowState :=
  if s.new_budget < max (current * (1/5)) 1 ∧ s.status = Status.decreased then
    { s with reason := s.reason ++ [Reason.lowBudgetWarning] }
  else s

/-- The emitted per-campaign decision object. -/
structure Decision where
  campaign_id : String
  old_budget : ℚ
  new_budget : ℚ
  adjustment_amount : ℚ
  adjustment_percent : ℚ
  status : Status
  reason : List Reason
  /-- the ROAS value formatted into `key_metric_value` -/
  key_metric_value : ℚ
  deriving Repr, DecidableEq

/-- Two-decimal rounding `round(x, 2)` used for `adjustment_percent`. -/
def pyRound2 (q : ℚ) : ℚ := (pyRound (q * 100) : ℤ) / 100

/-- The whole loop body for one row: rules 1–5 plus the assembly of the
result object. -/
def evalRow (avg : Option ℚ) (target_roas : ℚ) (c : Campaign) : Decision :=
  let current := c.cost
  let s := lowBudgetStage current
           (roundStage (suppressStage current (ruleStage avg target_roas c)))
  { campaign_id := c.campaign_id
    old_budget := current
    new_budget := s.new_budget
    adjustment_amount := s.new_budget - current
    adjustment_percent :=
      if current > 0 then pyRound2 ((s.new_budget - current) / current * 100) else 0
    status := s.status
    reason := s.reason
    key_metric_value := roasOf c }

/-- The core `analyze_campaigns`.  Returns the error object with message
"Campaign data is empty." on an empty batch, else one decision per
record.  `total_budget` is accepted but unused, as in the source. -/
def analyze_campaigns (total_budget : ℚ) (target_roas : ℚ)
    (campaign_data : List RawCampaign) : Except String (List Decision) :=
  if campaign_data = [] then Except.error "Campaign data is empty."
  else
    let rows := campaign_data.map preprocess
    let avg := avgCpcAll rows
    Except.ok (rows.map (evalRow avg target_roas))

/-- The JSON body of a request to `/analyze_budget`; each parameter is
`none` when absent from the payload. -/
structure RequestBody where
  total_budget : Option ℚ
  target_roas : Option ℚ
  campaign_data : Option (List RawCampaign)
  deriving Repr

/-- Python truthiness of an optional number (`None` and `0` are falsy). -/
def truthyNum (x : Option ℚ) : Bool :=
  match x with
  | none => false
  | some q => decide (q ≠ 0)

/-- Python truthiness of an optional list (`None` and `[]` are falsy). -/
def truthyList (x : Option (List RawCampaign)) : Bool :=
  match x with
  | none => false
  | some l => decide (l ≠ [])

/-- Responses of the `/analyze_budget` endpoint (HTTP code, payload). -/
inductive EndpointResp where
  /-- HTTP 400, the error object with message Invalid JSON -/
  | invalidJson
  /-- HTTP 400, missing required parameters -/
  | missingParams (msg : String)
  /-- HTTP 200, whatever the core returned (decision list or error object) -/
  | coreResult (r : Except String (List Decision))
  deriving Repr

/-- The endpoint `analyze_budget_endpoint`, the HTTP boundary.  Here
`none` models a request whose JSON body is absent or falsy. -/
def analyze_budget_endpoint (body : Option RequestBody) : EndpointResp :=
  match body with
  | none => EndpointResp.invalidJson
  | some b =>
    if truthyNum b.total_budget && truthyNum b.target_roas
        && truthyList b.campaign_data then
      EndpointResp.coreResult
        (analyze_campaigns (b.total_budget.getD 0) (b.target_roas.getD 0)
          (b.campaign_data.getD []))
    else
      EndpointResp.missingParams
        "Missing required parameters: total_budget, target_roas, campaign_data"

/-! ## Helper lemmas -/

theorem pyRound_floor_cases (q : ℚ) : pyRound q = ⌊q⌋ ∨ pyRound q = ⌊q⌋ + 1 := by
  unfold pyRound
  split_ifs <;> simp

theorem floor_le_pyRound (q : ℚ) : ⌊q⌋ ≤ pyRound q := by
  rcases pyRound_floor_cases q with h | h <;> omega

theorem pyRound_nonneg {q : ℚ} (h : 0 ≤ q) : 0 ≤ pyRound q := by
  have h1 := floor_le_pyRound q
  have h2 : (0 : ℤ) ≤ ⌊q⌋ := Int.floor_nonneg.mpr h
  omega

theorem one_le_pyRound {q : ℚ} (h : 1 ≤ q) : 1 ≤ pyRound q := by
  have h1 := floor_le_pyRound q
  have h2 : (1 : ℤ) ≤ ⌊q⌋ := Int.le_floor.mpr (by exact_mod_cast h)
  omega

theorem lowBudgetStage_new_budget (cur : ℚ) (s : RowState) :
    (lowBudgetStage cur s).new_budget = s.new_budget := by
  unfold lowBudgetStage
  split_ifs <;> rfl

theorem lowBudgetStage_status (cur : ℚ) (s : RowState) :
    (lowBudgetStage cur s).status = s.status := by
  unfold lowBudgetStage
  split_ifs <;> rfl

theorem tier_pos (q : ℚ) : 0 < get_adjustment_percentage_rules q := by
  unfold get_adjustment_percentage_rules
  split_ifs <;> norm_num

theorem ruleStage_nonneg (avg : Option ℚ) (tr : ℚ) (c : Campaign) (h : 0 ≤ c.cost) :
    0 ≤ (ruleStage avg tr c).new_budget := by
  unfold ruleStage
  dsimp only
  split_ifs
  · have h1 : (1 : ℚ) ≤ max (c.cost * (1/2)) 1 := le_max_right _ _
    show (0 : ℚ) ≤ ((pyRound (max (c.cost * (1/2)) 1) : ℤ) : ℚ)
    exact_mod_cast pyRound_nonneg (le_trans zero_le_one h1)
  · exact h
  · have h1 : 0 ≤ c.cost + c.cost * get_adjustment_percentage_rules c.cost :=
      add_nonneg h (mul_nonneg h (tier_pos c.cost).le)
    show (0 : ℚ) ≤
      ((pyRound (c.cost + c.cost * get_adjustment_percentage_rules c.cost) : ℤ) : ℚ)
    exact_mod_cast pyRound_nonneg h1
  · have h1 : (1 : ℚ) ≤ max (c.cost * (7/10)) 1 := le_max_right _ _
    show (0 : ℚ) ≤ ((pyRound (max (c.cost * (7/10)) 1) : ℤ) : ℚ)
    exact_mod_cast pyRound_nonneg (le_trans zero_le_one h1)
  · exact h

theorem suppressStage_nonneg (cur : ℚ) (s : RowState) (hc : 0 ≤ cur)
    (hs : 0 ≤ s.new_budget) : 0 ≤ (suppressStage cur s).new_budget := by
  unfold suppressStage
  split_ifs <;> assumption

theorem evalRow_new_budget_eq (avg : Option ℚ) (tr : ℚ) (c : Campaign) :
    (evalRow avg tr c).new_budget
      = ((pyRound (suppressStage c.cost (ruleStage avg tr c)).new_budget : ℤ) : ℚ) := by
  unfold evalRow roundStage
  dsimp only
  rw [lowBudgetStage_new_budget]

theorem evalRow_status_eq (avg : Option ℚ) (tr : ℚ) (c : Campaign) :
    (evalRow avg tr c).status = (suppressStage c.cost (ruleStage avg tr c)).status := by
  unfold evalRow roundStage
  dsimp only
  rw [lowBudgetStage_status]

theorem suppress_small (cur : ℚ) (s : RowState) (h : |s.new_budget - cur| < 5) :
    suppressStage cur s
      = ⟨cur, Status.unchanged,
          if s.status ≠ Status.unchanged
          then s.reason ++ [Reason.suppressedUnder5] else s.reason⟩ := by
  unfold suppressStage
  rw [if_pos h]

theorem evalRow_reason_eq (avg : Option ℚ) (tr : ℚ) (c : Campaign) :
    (evalRow avg tr c).reason
      = (lowBudgetStage c.cost (roundStage (suppressStage c.cost (ruleStage avg tr c)))).reason :=
  rfl

theorem lowBudgetStage_not_decreased (cur : ℚ) (s : RowState)
    (h : s.status ≠ Status.decreased) : lowBudgetStage cur s = s := by
  unfold lowBudgetStage
  rw [if_neg]
  intro hc
  exact h hc.2

theorem analyze_campaigns_ok (tb tr : ℚ) (cd : List RawCampaign) (h : cd ≠ []) :
    analyze_campaigns tb tr cd
      = Except.ok ((cd.map preprocess).map (evalRow (avgCpcAll (cd.map preprocess)) tr)) := by
  unfold analyze_campaigns
  rw [if_neg h]

/-! ## Claim theorems -/

/-- C1, counterexample.  Scenario C (`current_budget=600`, `target_roas=150`,
`roas=0.5`) does yield `new_budget = 420` with status `decreased`, but the
low-budget advisory is NOT appended: the emitted reason trail is exactly the
underperformance-cut fragment, because `420 < max(600*0.2, 1) = 120` is
false. -/
theorem C1_counterexample :
    analyze_campaigns 1000 150 [⟨"C", some 600, none, none, none, none, some 300, none⟩]
      = Except.ok [⟨"C", 600, 420, -180, -30, Status.decreased, [Reason.roasDecrease], 1/2⟩]
    ∧ Reason.lowBudgetWarning ∉ [Reason.roasDecrease]
    ∧ ¬((420 : ℚ) < max (600 * (1/5)) 1) := by
  refine ⟨?_, by decide, by norm_num⟩
  norm_num [analyze_campaigns, preprocess, coerceNum, avgCpcAll, cpcOf, evalRow, ruleStage,
    roasOf, isNewB, cpcExceeds, suppressStage, roundStage, lowBudgetStage, pyRound, pyRound2,
    get_adjustment_percentage_rules]

/-- C1, amended.  For the ESTABLISHED campaign with `current_budget=600`,
`target_roas=150` and `roas=0.5`, the engine sets `new_budget` to 420 with
status `decreased`; since 420 is not below `max(600*0.2, 1) = 120`, the
low-budget advisory is not appended and the reason trail consists solely of
the underperformance cut. -/
theorem C1_scenarioC :
    analyze_campaigns 1000 150 [⟨"C", some 600, none, none, none, none, some 300, none⟩]
      = Except.ok [⟨"C", 600, 420, -180, -30, Status.decreased, [Reason.roasDecrease], 1/2⟩] := by
  norm_num [analyze_campaigns, preprocess, coerceNum, avgCpcAll, cpcOf, evalRow, ruleStage,
    roasOf, isNewB, cpcExceeds, suppressStage, roundStage, lowBudgetStage, pyRound, pyRound2,
    get_adjustment_percentage_rules]

/-- C2, counterexample.  For a record with `cost = 10.4` the rule-computed
budget (10.4, unchanged) is within $5 of the old budget, and the final
status is indeed `unchanged`, but the emitted `new_budget` is the rounded
value 10, not the old budget 10.4. -/
theorem C2_counterexample :
    |(ruleStage none 150 (preprocess ⟨"c", some (52/5), none, none, none, none, none, none⟩)).new_budget
        - 52/5| < 5
    ∧ analyze_campaigns 1000 150 [⟨"c", some (52/5), none, none, none, none, none, none⟩]
      = Except.ok [⟨"c", 52/5, 10, -(2/5), -(77/20), Status.unchanged, [Reason.stableDefault], 0⟩]
    ∧ (10 : ℚ) ≠ 52/5 := by
  refine ⟨?_, ?_, by norm_num⟩
  · norm_num [ruleStage, preprocess, coerceNum, roasOf, isNewB, cpcOf, cpcExceeds, pyRound,
      get_adjustment_percentage_rules]
  · norm_num [analyze_campaigns, preprocess, coerceNum, avgCpcAll, cpcOf, evalRow, ruleStage,
      roasOf, isNewB, cpcExceeds, suppressStage, roundStage, lowBudgetStage, pyRound, pyRound2,
      get_adjustment_percentage_rules]

/-- C2, amended.  Minimum-change suppression: if the rule-computed
`new_budget` is within $5 of the old budget, the emitted decision has
status `unchanged` and its final `new_budget` equals `round(old_budget)`
(which is `old_budget` itself whenever the old budget is an integer), with
the suppression note appended to the reason exactly when a decrease or
increase had been decided. -/
theorem C2_minimum_change (avg : Option ℚ) (tr : ℚ) (c : Campaign)
    (h : |(ruleStage avg tr c).new_budget - c.cost| < 5) :
    (evalRow avg tr c).status = Status.unchanged
    ∧ (evalRow avg tr c).new_budget = ((pyRound c.cost : ℤ) : ℚ)
    ∧ (evalRow avg tr c).reason
      = (if (ruleStage avg tr c).status ≠ Status.unchanged
         then (ruleStage avg tr c).reason ++ [Reason.suppressedUnder5]
         else (ruleStage avg tr c).reason) := by
  have hs := suppress_small c.cost (ruleStage avg tr c) h
  refine ⟨?_, ?_, ?_⟩
  · rw [evalRow_status_eq, hs]
  · rw [evalRow_new_budget_eq, hs]
  · rw [evalRow_reason_eq, hs]
    rw [lowBudgetStage_not_decreased _ _ (by simp [roundStage])]
    rfl

/-- C2, witness: a record with `cost = 8` and `roas = 0.5` gets a 30% cut
to 6, which is within $5 of 8 and hence suppressed to `unchanged`. -/
theorem C2_minimum_change_witness :
    |(ruleStage none 150 (preprocess ⟨"w", some 8, none, none, none, none, some 4, none⟩)).new_budget
        - (preprocess ⟨"w", some 8, none, none, none, none, some 4, none⟩).cost| < 5
    ∧ (evalRow none 150 (preprocess ⟨"w", some 8, none, none, none, none, some 4, none⟩)).status
      = Status.unchanged :=
  ⟨by norm_num [ruleStage, preprocess, coerceNum, roasOf, isNewB, cpcOf, cpcExceeds, pyRound,
      get_adjustment_percentage_rules],
   (C2_minimum_change none 150 _
     (by norm_num [ruleStage, preprocess, coerceNum, roasOf, isNewB, cpcOf, cpcExceeds, pyRound,
        get_adjustment_percentage_rules])).1⟩

/-- C3, counterexample.  A negative numeric `cost` of -10 survives the
coercion step unchanged: `pd.to_numeric(..., errors=coerce).fillna(0)`
replaces only non-numeric/missing values by 0 and leaves -10 in place. -/
theorem C3_counterexample :
    coerceNum (some (-10)) = -10
    ∧ (preprocess ⟨"n", some (-10), none, none, none, none, none, none⟩).cost = -10
    ∧ ((-10 : ℚ) ≠ 0) := by
  refine ⟨rfl, rfl, by norm_num⟩

/-- C3, amended.  Missing or non-numeric values in the numeric fields are
coerced to 0 before the metrics are computed and no record is ever
rejected (a non-empty batch yields exactly one decision per record);
negative numeric values, however, pass through the coercion unchanged
rather than being coerced to 0. -/
theorem C3_coercion (tb tr : ℚ) (cd : List RawCampaign) (h : cd ≠ []) :
    coerceNum none = 0
    ∧ (∀ q : ℚ, coerceNum (some q) = q)
    ∧ analyze_campaigns tb tr cd
        = Except.ok ((cd.map preprocess).map (evalRow (avgCpcAll (cd.map preprocess)) tr))
    ∧ ((cd.map preprocess).map (evalRow (avgCpcAll (cd.map preprocess)) tr)).length
        = cd.length := by
  refine ⟨rfl, fun q => rfl, analyze_campaigns_ok tb tr cd h, by simp⟩

/-- C3, witness: a one-record batch with every numeric field missing. -/
theorem C3_coercion_witness :
    ([(⟨"x", none, none, none, none, none, none, none⟩ : RawCampaign)] ≠ [])
    ∧ coerceNum none = 0 :=
  ⟨by simp, (C3_coercion 1000 150 [⟨"x", none, none, none, none, none, none, none⟩]
      (by simp)).1⟩

/-- C4, counterexample.  A record whose `cost` is the negative number -10
(accepted, see C3) flows through every rule unchanged and is emitted with
`new_budget = -10`, which is not non-negative. -/
theorem C4_counterexample :
    analyze_campaigns 1000 150 [⟨"n", some (-10), none, none, none, none, none, none⟩]
      = Except.ok [⟨"n", -10, -10, 0, 0, Status.unchanged, [Reason.stableDefault], 0⟩]
    ∧ ¬(0 ≤ (-10 : ℚ)) := by
  constructor
  · norm_num [analyze_campaigns, preprocess, coerceNum, avgCpcAll, cpcOf, evalRow, ruleStage,
      roasOf, isNewB, cpcExceeds, suppressStage, roundStage, lowBudgetStage, pyRound, pyRound2,
      get_adjustment_percentage_rules]
    refine ⟨?_, ?_, ?_, ?_⟩ <;> simp
  · norm_num

/-- C4, amended.  In every successful evaluation the emitted `new_budget`
is an integer; it is moreover non-negative provided every record of the
batch has a non-negative (coerced) `cost` — a negative `cost` (which the
coercion step lets through, see C3) is carried into a negative
`new_budget`. -/
theorem C4_integer_nonneg (tb tr : ℚ) (cd : List RawCampaign) (ds : List Decision)
    (h : analyze_campaigns tb tr cd = Except.ok ds) (d : Decision) (hd : d ∈ ds) :
    (∃ z : ℤ, d.new_budget = (z : ℚ))
    ∧ ((∀ r ∈ cd, 0 ≤ coerceNum r.cost) → 0 ≤ d.new_budget) := by
  by_cases hcd : cd = []
  · subst hcd
    simp [analyze_campaigns] at h
  · rw [analyze_campaigns_ok tb tr cd hcd] at h
    injection h with h
    subst h
    rw [List.mem_map] at hd
    obtain ⟨c, hc, rfl⟩ := hd
    rw [List.mem_map] at hc
    obtain ⟨r, hr, rfl⟩ := hc
    constructor
    · exact ⟨_, evalRow_new_budget_eq _ _ _⟩
    · intro hcost
      have h0 : 0 ≤ (preprocess r).cost := hcost r hr
      rw [evalRow_new_budget_eq]
      have h1 := ruleStage_nonneg (avgCpcAll (cd.map preprocess)) tr (preprocess r) h0
      have h2 := suppressStage_nonneg (preprocess r).cost _ h0 h1
      exact_mod_cast pyRound_nonneg h2

/-- C4, witness: a batch of one record with `cost = 40`. -/
theorem C4_integer_nonneg_witness :
    (∃ z : ℤ,
      ((⟨"a", 40, 40, 0, 0, Status.unchanged, [Reason.stableDefault], 0⟩ : Decision).new_budget
        = (z : ℚ)))
    ∧ 0 ≤ (⟨"a", 40, 40, 0, 0, Status.unchanged, [Reason.stableDefault], 0⟩ : Decision).new_budget := by
  have h := C4_integer_nonneg 1000 150 [⟨"a", some 40, none, none, none, none, none, none⟩]
    [⟨"a", 40, 40, 0, 0, Status.unchanged, [Reason.stableDefault], 0⟩]
    (by norm_num [analyze_campaigns, preprocess, coerceNum, avgCpcAll, cpcOf, evalRow, ruleStage,
      roasOf, isNewB, cpcExceeds, suppressStage, roundStage, lowBudgetStage, pyRound, pyRound2,
      get_adjustment_percentage_rules])
    _ (List.mem_singleton.mpr rfl)
  exact ⟨h.1, h.2 (by intro r hr; rw [List.mem_singleton] at hr; subst hr; norm_num [coerceNum])⟩

/-- C5, counterexample.  A batch consisting of a single NEW campaign with
`click = 0`: every CPC of the batch is infinite, so `avg_cpc_all` is `NaN`
and the comparison `inf > NaN * 1.3` is false — the NEW-branch decrease
does NOT trigger and the campaign is left `unchanged`, contradicting
"always triggers". -/
theorem C5_counterexample :
    isNewB (preprocess ⟨"n", some 100, none, some 0, none, none, none, some 1⟩) = true
    ∧ (preprocess ⟨"n", some 100, none, some 0, none, none, none, some 1⟩).click = 0
    ∧ avgCpcAll [preprocess ⟨"n", some 100, none, some 0, none, none, none, some 1⟩] = none
    ∧ analyze_campaigns 1000 150 [⟨"n", some 100, none, some 0, none, none, none, some 1⟩]
      = Except.ok [⟨"n", 100, 100, 0, 0, Status.unchanged, [Reason.newNormal], 0⟩]
    ∧ Status.unchanged ≠ Status.decreased := by
  refine ⟨by norm_num [isNewB, preprocess, coerceNum], rfl,
    by norm_num [avgCpcAll, cpcOf, preprocess, coerceNum], ?_, by decide⟩
  norm_num [analyze_campaigns, preprocess, coerceNum, avgCpcAll, cpcOf, evalRow, ruleStage,
    roasOf, isNewB, cpcExceeds, suppressStage, roundStage, lowBudgetStage, pyRound, pyRound2,
    get_adjustment_percentage_rules]

/-- C5, amended.  For every NEW campaign with `click = 0` (infinite CPC):
when `avg_cpc_valid` is defined (some record of the batch has a finite
CPC) the NEW-branch decrease always triggers, since infinity exceeds any
finite threshold; when no record has a finite CPC the average is
`NaN`, the comparison is false, and the campaign is left unchanged under
observation. -/
theorem C5_new_zero_click (a tr : ℚ) (c : Campaign) (hnew : isNewB c = true)
    (hclick : c.click ≤ 0) :
    ruleStage (some a) tr c
      = ⟨((pyRound (max (c.cost * (1/2)) 1) : ℤ) : ℚ), Status.decreased, [Reason.newHighCpc]⟩
    ∧ ruleStage none tr c = ⟨c.cost, Status.unchanged, [Reason.newNormal]⟩ := by
  have hcpc : cpcOf c = none := by
    unfold cpcOf
    rw [if_neg (not_lt.mpr hclick)]
  constructor
  · unfold ruleStage
    rw [hnew, hcpc]
    rfl
  · unfold ruleStage
    rw [hnew, hcpc]
    rfl

/-- C5, witness: the NEW `click = 0` record of the counterexample together
with a defined average CPC of 3. -/
theorem C5_new_zero_click_witness :
    (ruleStage (some 3) 150 (preprocess ⟨"n", some 100, none, some 0, none, none, none, some 1⟩)).status
      = Status.decreased
    ∧ (ruleStage none 150 (preprocess ⟨"n", some 100, none, some 0, none, none, none, some 1⟩)).status
      = Status.unchanged := by
  have h := C5_new_zero_click 3 150
    (preprocess ⟨"n", some 100, none, some 0, none, none, none, some 1⟩)
    (by norm_num [isNewB, preprocess, coerceNum])
    (by norm_num [preprocess, coerceNum])
  exact ⟨by rw [h.1], by rw [h.2]⟩

/-- C6, counterexample.  An ESTABLISHED record with the fractional cost
40.6 and `roas = 0` is indeed left `unchanged`, but its emitted
`new_budget` is the rounded value 41, not the current budget 40.6. -/
theorem C6_counterexample :
    roasOf (preprocess ⟨"f", some (203/5), none, none, none, none, none, none⟩) = 0
    ∧ isNewB (preprocess ⟨"f", some (203/5), none, none, none, none, none, none⟩) = false
    ∧ analyze_campaigns 1000 150 [⟨"f", some (203/5), none, none, none, none, none, none⟩]
      = Except.ok [⟨"f", 203/5, 41, 2/5, 99/100, Status.unchanged, [Reason.stableDefault], 0⟩]
    ∧ (41 : ℚ) ≠ 203/5 := by
  refine ⟨by norm_num [roasOf, preprocess, coerceNum], rfl, ?_, by norm_num⟩
  norm_num [analyze_campaigns, preprocess, coerceNum, avgCpcAll, cpcOf, evalRow, ruleStage,
    roasOf, isNewB, cpcExceeds, suppressStage, roundStage, lowBudgetStage, pyRound, pyRound2,
    get_adjustment_percentage_rules]

/-- C6, amended.  For every ESTABLISHED campaign with `roas` exactly 0 and
a non-negative `target_roas`, neither the underperformance cut (which
requires `0 < roas`) nor the increase branch applies, so the decision has
status `unchanged` and its emitted `new_budget` is `round(current_budget)`
— equal to the current budget whenever that is an integer.  (A negative
`target_roas` would instead route `roas = 0` to the increase branch.) -/
theorem C6_roas_zero (avg : Option ℚ) (tr : ℚ) (c : Campaign)
    (hnew : isNewB c = false) (hroas : roasOf c = 0) (htr : 0 ≤ tr) :
    (evalRow avg tr c).status = Status.unchanged
    ∧ (evalRow avg tr c).new_budget = ((pyRound c.cost : ℤ) : ℚ) := by
  have h1 : ¬(roasOf c > tr / 100 * (6/5)) := by
    rw [hroas]
    exact not_lt.mpr (by positivity)
  have h2 : ¬(0 < roasOf c ∧ roasOf c < tr / 100 * (4/5)) := by
    rw [hroas]
    rintro ⟨hcon, -⟩
    exact lt_irrefl 0 hcon
  have hrule : ruleStage avg tr c = ⟨c.cost, Status.unchanged, [Reason.stableDefault]⟩ := by
    unfold ruleStage
    rw [hnew, if_neg Bool.false_ne_true]
    dsimp only
    rw [if_neg h1, if_neg h2]
  have hs : suppressStage c.cost (ruleStage avg tr c)
      = ⟨c.cost, Status.unchanged, [Reason.stableDefault]⟩ := by
    rw [hrule, suppress_small _ _ (by norm_num)]
    simp
  exact ⟨by rw [evalRow_status_eq, hs], by rw [evalRow_new_budget_eq, hs]⟩

/-- C6, witness: scenario A, `current_budget = 40`, `roas = 0`,
`target_roas = 150`, no parseable creation time. -/
theorem C6_roas_zero_witness :
    (evalRow none 150 (preprocess ⟨"a", some 40, none, none, none, none, none, none⟩)).status
      = Status.unchanged
    ∧ (evalRow none 150 (preprocess ⟨"a", some 40, none, none, none, none, none, none⟩)).new_budget
      = ((pyRound (preprocess ⟨"a", some 40, none, none, none, none, none, none⟩).cost : ℤ) : ℚ) := by
  have h := C6_roas_zero none 150 (preprocess ⟨"a", some 40, none, none, none, none, none, none⟩)
    rfl (by norm_num [roasOf, preprocess, coerceNum]) (by norm_num)
  exact ⟨h.1, h.2⟩

/-- C7, confirmed.  For every ESTABLISHED campaign whose `roas` exceeds
`(target_roas/100) * 1.2`, the rule-engine branch sets
`new_budget = round(current + current * factor)` with status `increased`,
where the tier factor is 2.0 for budgets up to 50, 1.0 on (50, 100],
0.5 on (100, 500] and 0.3 above 500; scenario B
(`current_budget = 40`, `target_roas = 150`, `roas = 2.0`) yields the
emitted decision `new_budget = 120`, status `increased`. -/
theorem C7_roas_increase (avg : Option ℚ) (tr : ℚ) (c : Campaign)
    (hnew : isNewB c = false) (hroas : roasOf c > tr / 100 * (6/5)) :
    ruleStage avg tr c
      = ⟨((pyRound (c.cost + c.cost * get_adjustment_percentage_rules c.cost) : ℤ) : ℚ),
          Status.increased, [Reason.roasIncrease]⟩
    ∧ (c.cost ≤ 50 → get_adjustment_percentage_rules c.cost = 2)
    ∧ (50 < c.cost → c.cost ≤ 100 → get_adjustment_percentage_rules c.cost = 1)
    ∧ (100 < c.cost → c.cost ≤ 500 → get_adjustment_percentage_rules c.cost = 1/2)
    ∧ (500 < c.cost → get_adjustment_percentage_rules c.cost = 3/10)
    ∧ analyze_campaigns 1000 150 [⟨"B", some 40, none, none, none, none, some 80, none⟩]
      = Except.ok [⟨"B", 40, 120, 80, 200, Status.increased, [Reason.roasIncrease], 2⟩] := by
  refine ⟨?_, ?_, ?_, ?_, ?_, ?_⟩
  · unfold ruleStage
    rw [hnew, if_neg Bool.false_ne_true]
    dsimp only
    rw [if_pos hroas]
  · intro h
    unfold get_adjustment_percentage_rules
    rw [if_pos h]
  · intro h1 h2
    unfold get_adjustment_percentage_rules
    rw [if_neg (not_le.mpr h1), if_pos h2]
  · intro h1 h2
    unfold get_adjustment_percentage_rules
    rw [if_neg (not_le.mpr (lt_trans (by norm_num) h1)), if_neg (not_le.mpr h1), if_pos h2]
  · intro h1
    unfold get_adjustment_percentage_rules
    rw [if_neg (not_le.mpr (lt_trans (by norm_num) h1)),
      if_neg (not_le.mpr (lt_trans (by norm_num) h1)), if_neg (not_le.mpr h1)]
  · norm_num [analyze_campaigns, preprocess, coerceNum, avgCpcAll, cpcOf, evalRow, ruleStage,
      roasOf, isNewB, cpcExceeds, suppressStage, roundStage, lowBudgetStage, pyRound, pyRound2,
      get_adjustment_percentage_rules]

/-- C7, witness: scenario B through the rule stage. -/
theorem C7_roas_increase_witness :
    isNewB (preprocess ⟨"B", some 40, none, none, none, none, some 80, none⟩) = false
    ∧ roasOf (preprocess ⟨"B", some 40, none, none, none, none, some 80, none⟩) > 150 / 100 * (6/5)
    ∧ ruleStage none 150 (preprocess ⟨"B", some 40, none, none, none, none, some 80, none⟩)
      = ⟨120, Status.increased, [Reason.roasIncrease]⟩ := by
  have h := C7_roas_increase none 150
    (preprocess ⟨"B", some 40, none, none, none, none, some 80, none⟩)
    rfl (by norm_num [roasOf, preprocess, coerceNum])
  refine ⟨rfl, by norm_num [roasOf, preprocess, coerceNum], ?_⟩
  rw [h.1]
  norm_num [preprocess, coerceNum, get_adjustment_percentage_rules, pyRound]

/-- C8, confirmed.  The core reports an empty batch as the error object
with message "Campaign data is empty." rather than failing, and the
endpoint rejects any request in which `total_budget`, `target_roas` or
`campaign_data` is missing or falsy with the missing-required-parameters
error, before the core runs. -/
theorem C8_input_errors :
    (∀ tb tr : ℚ, analyze_campaigns tb tr [] = Except.error "Campaign data is empty.")
    ∧ (∀ b : RequestBody,
        (truthyNum b.total_budget && truthyNum b.target_roas && truthyList b.campaign_data)
          = false →
        analyze_budget_endpoint (some b)
          = EndpointResp.missingParams
              "Missing required parameters: total_budget, target_roas, campaign_data") := by
  constructor
  · intro tb tr
    rfl
  · intro b hb
    unfold analyze_budget_endpoint
    dsimp only
    rw [hb, if_neg Bool.false_ne_true]

/-- C8, witness: the empty batch, and a request missing `total_budget`. -/
theorem C8_input_errors_witness :
    analyze_campaigns 1000 150 [] = Except.error "Campaign data is empty."
    ∧ analyze_budget_endpoint
        (some ⟨none, some 150, some [⟨"x", some 1, none, none, none, none, none, none⟩]⟩)
      = EndpointResp.missingParams
          "Missing required parameters: total_budget, target_roas, campaign_data" :=
  ⟨C8_input_errors.1 1000 150,
   C8_input_errors.2 ⟨none, some 150, some [⟨"x", some 1, none, none, none, none, none, none⟩]⟩
     rfl⟩

/-- C9, confirmed.  Noninterference of `total_budget`: the core ignores it
entirely, so any two evaluations agreeing on `target_roas` and
`campaign_data` produce identical decision lists, whatever their
`total_budget`; in particular the sum of the adjusted budgets is never
capped by it. -/
theorem C9_total_budget_noninterference (tb₁ tb₂ tr : ℚ) (cd : List RawCampaign) :
    analyze_campaigns tb₁ tr cd = analyze_campaigns tb₂ tr cd := rfl

/-- C10, confirmed.  Frame property of the low-budget flag: the stage
appends the pause-recommendation warning exactly when the status is
`decreased` and the budget is below `max(current * 0.2, 1)`, leaves the
reason untouched otherwise, and never changes `new_budget` or `status`. -/
theorem C10_low_budget_frame (cur : ℚ) (s : RowState) :
    (lowBudgetStage cur s).new_budget = s.new_budget
    ∧ (lowBudgetStage cur s).status = s.status
    ∧ (s.new_budget < max (cur * (1/5)) 1 ∧ s.status = Status.decreased →
        (lowBudgetStage cur s).reason = s.reason ++ [Reason.lowBudgetWarning])
    ∧ (¬(s.new_budget < max (cur * (1/5)) 1 ∧ s.status = Status.decreased) →
        (lowBudgetStage cur s).reason = s.reason) := by
  refine ⟨lowBudgetStage_new_budget cur s, lowBudgetStage_status cur s, ?_, ?_⟩
  · intro h
    unfold lowBudgetStage
    rw [if_pos h]
  · intro h
    unfold lowBudgetStage
    rw [if_neg h]

/-- C10, witness: a decreased budget of 10 against a current budget of
600 gets the warning appended while budget and status are untouched. -/
theorem C10_low_budget_frame_witness :
    ((10 : ℚ) < max ((600 : ℚ) * (1/5)) 1 ∧ Status.decreased = Status.decreased)
    ∧ (lowBudgetStage 600 ⟨10, Status.decreased, [Reason.roasDecrease]⟩).reason
      = [Reason.roasDecrease] ++ [Reason.lowBudgetWarning]
    ∧ (lowBudgetStage 600 ⟨10, Status.decreased, [Reason.roasDecrease]⟩).new_budget = 10
    ∧ (lowBudgetStage 600 ⟨10, Status.decreased, [Reason.roasDecrease]⟩).status
      = Status.decreased := by
  have h := C10_low_budget_frame 600 ⟨10, Status.decreased, [Reason.roasDecrease]⟩
  exact ⟨⟨by norm_num, rfl⟩, h.2.2.1 ⟨by norm_num, rfl⟩, h.1, h.2.1⟩
